import Mathlib

/-!
Verification of the camera projection/exposure core (`filament/src/Camera.cpp`).

The C++ code stores 4x4 matrices in column-major order: `p[c][r]` is column `c`,
row `r`.  We embed matrices as Mathlib `Matrix (Fin 4) (Fin 4) K` in the usual
mathematical convention, `M i j` = row `i`, column `j`, so a C++ access `p[c][r]`
corresponds to `M r c`.  Filament's `mat4` multiplication implements the
ordinary mathematical matrix product, which coincides with Mathlib's `*`.

Scalars (C++ `double` / `float`) are modelled as elements of a linear ordered
field `K`; concrete evaluations instantiate `K := ℚ`, and the field-of-view
setter, which calls `std::tan`, is embedded over `ℝ`.
-/

namespace FilamentCamera

variable {K : Type} [LinearOrderedField K]

/-- `Camera::Projection` from the public header: the projection type selector. -/
inductive Projection where
  | PERSPECTIVE : Projection
  | ORTHO : Projection
deriving DecidableEq, Repr

/-- `Camera::Fov` from the public header: which direction the field of view applies to. -/
inductive Fov where
  | VERTICAL : Fov
  | HORIZONTAL : Fov
deriving DecidableEq, Repr

/-- Modelled from the spec: the external matrix primitive `mat4::frustum`
(`math/mat4.h` is not part of this excerpt).  The spec and the comment block in
`FCamera::setProjection` give the standard off-center GL frustum matrix
(row-major reading):
`2N/(r-l), 0, (r+l)/(r-l), 0 / 0, 2N/(t-b), (t+b)/(t-b), 0 /
 0, 0, (F+N)/(N-F), 2FN/(N-F) / 0, 0, -1, 0`. -/
def frustum (l r b t n f : K) : Matrix (Fin 4) (Fin 4) K :=
  !![2 * n / (r - l), 0, (r + l) / (r - l), 0;
     0, 2 * n / (t - b), (t + b) / (t - b), 0;
     0, 0, (f + n) / (n - f), 2 * f * n / (n - f);
     0, 0, -1, 0]

/-- Modelled from the spec: the external matrix primitive `mat4::ortho`.  The
spec and the comment block in `FCamera::setProjection` give the standard GL
orthographic matrix (row-major reading):
`2/(r-l), 0, 0, -(r+l)/(r-l) / 0, 2/(t-b), 0, -(t+b)/(t-b) /
 0, 0, -2/(F-N), -(F+N)/(F-N) / 0, 0, 0, 1`. -/
def ortho (l r b t n f : K) : Matrix (Fin 4) (Fin 4) K :=
  !![2 / (r - l), 0, 0, -((r + l) / (r - l));
     0, 2 / (t - b), 0, -((t + b) / (t - b));
     0, 0, -2 / (f - n), -((f + n) / (f - n));
     0, 0, 0, 1]

/-- Overwrite one entry of a 4x4 matrix, as the C++ assignments
`p[c][r] = v` do (here `i` is the row and `j` the column). -/
def setEntry (m : Matrix (Fin 4) (Fin 4) K) (i j : Fin 4) (v : K) :
    Matrix (Fin 4) (Fin 4) K :=
  Matrix.of fun a b => if a = i ∧ b = j then v else m a b

/-- The mutable state of `FCamera` that the excerpt touches: stored rendering
projection `mProjection`, culling projection `mProjectionForCulling`, near/far
scalars, clip-space scaling and shift, and the exposure parameters. -/
structure CameraState (K : Type) where
  mProjection : Matrix (Fin 4) (Fin 4) K
  mProjectionForCulling : Matrix (Fin 4) (Fin 4) K
  mNear : K
  mFar : K
  mScalingX : K
  mScalingY : K
  mShiftX : K
  mShiftY : K
  mAperture : K
  mShutterSpeed : K
  mSensitivity : K
  mFocusDistance : K
deriving DecidableEq

/-- The body of `FCamera::setProjection(projection, left, right, bottom, top,
near, far)` after the precondition check: builds the projection matrices and
stores them together with near/far (lines 109-151 of Camera.cpp).
For PERSPECTIVE the culling projection is the exact frustum matrix and the
rendering projection is that matrix with `p[2][2] = -1` (row 2, col 2) and
`p[3][2] = -2*near` (row 2, col 3) overwritten; for ORTHO both are the
orthographic matrix. -/
def setProjectionUnchecked (cam : CameraState K) (projection : Projection)
    (l r b t n f : K) : CameraState K :=
  match projection with
  | Projection.PERSPECTIVE =>
      let p := frustum l r b t n f
      { cam with
        mProjectionForCulling := p
        mProjection := setEntry (setEntry p 2 2 (-1)) 2 3 (-2 * n)
        mNear := n
        mFar := f }
  | Projection.ORTHO =>
      let p := ortho l r b t n f
      { cam with
        mProjectionForCulling := p
        mProjection := p
        mNear := n
        mFar := f }

/-- The precondition check of `FCamera::setProjection` (lines 96-99): the
parameters are degenerate when `left == right`, `bottom == top`, the projection
is PERSPECTIVE with `near <= 0` or `far <= near`, or ORTHO with `near == far`. -/
def degenerateFrustum (projection : Projection) (l r b t n f : K) : Prop :=
  l = r ∨ b = t ∨
    (projection = Projection.PERSPECTIVE ∧ (n ≤ 0 ∨ f ≤ n)) ∨
    (projection = Projection.ORTHO ∧ n = f)

instance (projection : Projection) (l r b t n f : K) :
    Decidable (degenerateFrustum projection l r b t n f) := by
  unfold degenerateFrustum; infer_instance

/-- `FCamera::setProjection(projection, left, right, bottom, top, near, far)`
(lines 89-151): on degenerate parameters it logs and substitutes the default
frustum `(-0.1, 0.1, -0.1, 0.1, 0.1, 100.0)`, then builds and stores the
matrices. -/
def setProjection (cam : CameraState K) (projection : Projection)
    (l r b t n f : K) : CameraState K :=
  if degenerateFrustum projection l r b t n f then
    setProjectionUnchecked cam projection (-(1/10)) (1/10) (-(1/10)) (1/10) (1/10) 100
  else
    setProjectionUnchecked cam projection l r b t n f

/-- `FCamera::setCustomProjection(p, c, near, far)` (lines 81-87): stores the
two matrices and the near/far scalars directly, with no validation.  The C++
code narrows `near`/`far` from `double` to `float`; the real-number model
treats that conversion as exact. -/
def setCustomProjection2 (cam : CameraState K)
    (p c : Matrix (Fin 4) (Fin 4) K) (near far : K) : CameraState K :=
  { cam with
    mProjection := p
    mProjectionForCulling := c
    mNear := near
    mFar := far }

/-- `FCamera::setCustomProjection(p, near, far)` (lines 77-79): delegates to
the two-matrix overload with `p` used for both matrices. -/
def setCustomProjection (cam : CameraState K)
    (p : Matrix (Fin 4) (Fin 4) K) (near far : K) : CameraState K :=
  setCustomProjection2 cam p p near far

/-- `FCamera::getProjectionMatrix` (lines 153-165): premultiplies the stored
rendering projection by the clip-space adapter matrix, written in the source
with `mat4::row_major_init` as
`sx, 0, 0, tx / 0, sy, 0, ty / 0, 0, -0.5, 0.5 / 0, 0, 0, 1`. -/
def getProjectionMatrix (cam : CameraState K) : Matrix (Fin 4) (Fin 4) K :=
  !![cam.mScalingX, 0, 0, cam.mShiftX;
     0, cam.mScalingY, 0, cam.mShiftY;
     0, 0, -(1/2), 1/2;
     0, 0, 0, 1] * cam.mProjection

/-- `FCamera::getCullingProjectionMatrix` (lines 167-176): premultiplies the
stored culling projection by the adapter matrix with identity Z and W rows:
`sx, 0, 0, tx / 0, sy, 0, ty / 0, 0, 1, 0 / 0, 0, 0, 1`. -/
def getCullingProjectionMatrix (cam : CameraState K) : Matrix (Fin 4) (Fin 4) K :=
  !![cam.mScalingX, 0, 0, cam.mShiftX;
     0, cam.mScalingY, 0, cam.mShiftY;
     0, 0, 1, 0;
     0, 0, 0, 1] * cam.mProjectionForCulling

/-- Modelled from the spec: `math::clamp(v, min, max)` from the external
`math/scalar.h`; the spec says out-of-range inputs are clamped to the nearest
bound, i.e. `min (max v lo) hi`. -/
def clamp (v lo hi : K) : K := min (max v lo) hi

/-- `FCamera::setExposure(aperture, shutterSpeed, sensitivity)` (lines
208-212): stores each parameter clamped to its physical range, using the
constants `MIN_APERTURE = 0.5`, `MAX_APERTURE = 64`,
`MIN_SHUTTER_SPEED = 1/25000`, `MAX_SHUTTER_SPEED = 60`,
`MIN_SENSITIVITY = 10`, `MAX_SENSITIVITY = 204800` (lines 38-43). -/
def setExposure (cam : CameraState K) (aperture shutterSpeed sensitivity : K) :
    CameraState K :=
  { cam with
    mAperture := clamp aperture (1/2) 64
    mShutterSpeed := clamp shutterSpeed (1/25000) 60
    mSensitivity := clamp sensitivity 10 204800 }

/-- The denominator of the thin-lens quotient in
`FCamera::computeEffectiveFocalLength`: `focusDistance - focalLength` after
`focusDistance` has been clamped to `max(focalLength, focusDistance)`
(lines 219-220). -/
def effectiveFocalDenominator (focalLength focusDistance : K) : K :=
  max focalLength focusDistance - focalLength

/-- `FCamera::computeEffectiveFocalLength(focalLength, focusDistance)` (lines
218-221): clamps `focusDistance` to at least `focalLength` with `std::max`,
then returns `(focusDistance * focalLength) / (focusDistance - focalLength)`.
(Field division by zero yields `0` in this model; in the C++ doubles it yields
infinity — in both cases the zero denominator is reached, not avoided.) -/
def computeEffectiveFocalLength (focalLength focusDistance : K) : K :=
  max focalLength focusDistance * focalLength /
    effectiveFocalDenominator focalLength focusDistance

/-- `inverseProjection` (lines 230-266): the closed-form inverse, branching on
`p[2][3]` (row 3, col 2 in our convention) being nonzero (perspective) or zero
(orthographic).  The C++ result matrix `r` is default-initialized to identity
and every diagonal entry is overwritten in both branches, so the unassigned
entries are `0` exactly as in the literals below. -/
def inverseProjection (p : Matrix (Fin 4) (Fin 4) K) : Matrix (Fin 4) (Fin 4) K :=
  let A := 1 / p 0 0
  let B := 1 / p 1 1
  if p 3 2 ≠ 0 then
    let C := 1 / p 2 3
    !![A, 0, 0, p 0 2 * A;
       0, B, 0, p 1 2 * B;
       0, 0, 0, -1;
       0, 0, C, p 2 2 * C]
  else
    let C := 1 / p 2 2
    !![A, 0, 0, -(p 0 3) * A;
       0, B, 0, -(p 1 3) * B;
       0, 0, C, -(p 2 3) * C;
       0, 0, 0, 1]

/-- Modelled from the spec: `FCamera::SENSOR_SIZE`, declared in the header
`details/Camera.h` which is not part of this excerpt.  The source comment
"a 35mm camera has a 36x24mm wide frame size" together with the spec's lens
formula fixes it as the full-frame sensor height in meters, `0.024`. -/
def sensorSize : K := 24 / 1000

/-- `FCamera::getFocalLength` (lines 214-216): derives the focal length from
the stored projection's vertical scale, `SENSOR_SIZE * mProjection[1][1] * 0.5`
(`mProjection[1][1]` is row 1, col 1 in our convention). -/
def getFocalLength (cam : CameraState K) : K :=
  sensorSize * cam.mProjection 1 1 * (1/2)

/-- Modelled from the spec: `Camera::getPosition`, declared in headers outside
this excerpt; the camera's world position is the translation column of its
model matrix. -/
def getPosition (m : Matrix (Fin 4) (Fin 4) K) : K × K × K :=
  (m 0 3, m 1 3, m 2 3)

/-- Modelled from the spec: the external matrix primitive `inverse(mat4)`
used for view matrices; the exact inverse, written with the adjugate so it is
defined (as a total function) for every matrix. -/
def inverse4 (m : Matrix (Fin 4) (Fin 4) K) : Matrix (Fin 4) (Fin 4) K :=
  (1 / m.det) • m.adjugate

/-- The `CameraInfo` snapshot struct (`details/Camera.h`): per-frame capture of
the camera's matrices, near/far, exposure value, focal length, aperture
diameter, focus depth, and the world-origin data. -/
structure CameraInfo (K : Type) where
  projection : Matrix (Fin 4) (Fin 4) K
  cullingProjection : Matrix (Fin 4) (Fin 4) K
  model : Matrix (Fin 4) (Fin 4) K
  view : Matrix (Fin 4) (Fin 4) K
  zn : K
  zf : K
  ev100 : K
  f : K
  A : K
  d : K
  worldOffset : K × K × K
  worldOrigin : Matrix (Fin 4) (Fin 4) K

/-- `CameraInfo::CameraInfo(FCamera const&)` (lines 270-281).  The camera's
model matrix lives in the external transform system and the exposure value is
computed by the external exposure module, so both enter as parameters
`modelMatrix` and `ev`.  The world-origin fields keep their default member
values (zero offset, identity matrix, from `details/Camera.h`). -/
def mkCameraInfo (cam : CameraState K)
    (modelMatrix : Matrix (Fin 4) (Fin 4) K) (ev : K) : CameraInfo K :=
  { projection := getProjectionMatrix cam
    cullingProjection := getCullingProjectionMatrix cam
    model := modelMatrix
    view := inverse4 modelMatrix
    zn := cam.mNear
    zf := cam.mFar
    ev100 := ev
    f := getFocalLength cam
    A := getFocalLength cam / cam.mAperture
    d := max cam.mNear cam.mFocusDistance
    worldOffset := (0, 0, 0)
    worldOrigin := 1 }

/-- `CameraInfo::CameraInfo(FCamera const&, mat4 const& worldOriginCamera)`
(lines 283-297): premultiplies the world-origin transform into the model
matrix, derives the view matrix as its inverse, and additionally records the
camera's world position (`camera.getPosition()`, the translation of the
camera's own model matrix) and the world-origin matrix. -/
def mkCameraInfoWorldOrigin (cam : CameraState K)
    (modelMatrix worldOriginCamera : Matrix (Fin 4) (Fin 4) K) (ev : K) :
    CameraInfo K :=
  { projection := getProjectionMatrix cam
    cullingProjection := getCullingProjectionMatrix cam
    model := worldOriginCamera * modelMatrix
    view := inverse4 (worldOriginCamera * modelMatrix)
    zn := cam.mNear
    zf := cam.mFar
    ev100 := ev
    f := getFocalLength cam
    A := getFocalLength cam / cam.mAperture
    d := max cam.mNear cam.mFocusDistance
    worldOffset := getPosition modelMatrix
    worldOrigin := worldOriginCamera }

/-- `math::d::DEG_TO_RAD` from the external math library: `π / 180`. -/
noncomputable def degToRad : ℝ := Real.pi / 180

/-- `FCamera::setProjection(fovInDegrees, aspect, near, far, direction)`
(lines 50-63): computes `s = tan(fovInDegrees * DEG_TO_RAD / 2) * near`,
assigns it to the half-height (VERTICAL, with half-width `s * aspect`) or to
the half-width (HORIZONTAL, with half-height `s / aspect`), and delegates to
the frustum-based `setProjection` with the symmetric frustum
`(PERSPECTIVE, -w, w, -h, h, near, far)`.  Embedded over `ℝ` because the code
calls `std::tan`. -/
noncomputable def setProjectionFov (cam : CameraState ℝ)
    (fovInDegrees aspect near far : ℝ) (direction : Fov) : CameraState ℝ :=
  let s := Real.tan (fovInDegrees * degToRad / 2) * near
  let w := match direction with
    | Fov.VERTICAL => s * aspect
    | Fov.HORIZONTAL => s
  let h := match direction with
    | Fov.VERTICAL => s
    | Fov.HORIZONTAL => s / aspect
  setProjection cam Projection.PERSPECTIVE (-w) w (-h) h near far

/-- A concrete camera state used to instantiate universally quantified
theorems at specific inputs: identity matrices, the default frustum scalars,
unit scaling, zero shift, and mid-range exposure values. -/
def camera0 : CameraState ℚ :=
  { mProjection := 1
    mProjectionForCulling := 1
    mNear := 1/10
    mFar := 100
    mScalingX := 1
    mScalingY := 1
    mShiftX := 0
    mShiftY := 0
    mAperture := 16
    mShutterSpeed := 1/125
    mSensitivity := 100
    mFocusDistance := 10 }

lemma one_fin_four : (1 : Matrix (Fin 4) (Fin 4) K) =
    !![1, 0, 0, 0; 0, 1, 0, 0; 0, 0, 1, 0; 0, 0, 0, 1] := by
  ext i j
  fin_cases i <;> fin_cases j <;> rfl

lemma mul_fin_four
    (a00 a01 a02 a03 a10 a11 a12 a13 a20 a21 a22 a23 a30 a31 a32 a33
     b00 b01 b02 b03 b10 b11 b12 b13 b20 b21 b22 b23 b30 b31 b32 b33 : K) :
    !![a00, a01, a02, a03; a10, a11, a12, a13;
       a20, a21, a22, a23; a30, a31, a32, a33] *
    !![b00, b01, b02, b03; b10, b11, b12, b13;
       b20, b21, b22, b23; b30, b31, b32, b33] =
    !![a00*b00 + a01*b10 + a02*b20 + a03*b30, a00*b01 + a01*b11 + a02*b21 + a03*b31,
       a00*b02 + a01*b12 + a02*b22 + a03*b32, a00*b03 + a01*b13 + a02*b23 + a03*b33;
       a10*b00 + a11*b10 + a12*b20 + a13*b30, a10*b01 + a11*b11 + a12*b21 + a13*b31,
       a10*b02 + a11*b12 + a12*b22 + a13*b32, a10*b03 + a11*b13 + a12*b23 + a13*b33;
       a20*b00 + a21*b10 + a22*b20 + a23*b30, a20*b01 + a21*b11 + a22*b21 + a23*b31,
       a20*b02 + a21*b12 + a22*b22 + a23*b32, a20*b03 + a21*b13 + a22*b23 + a23*b33;
       a30*b00 + a31*b10 + a32*b20 + a33*b30, a30*b01 + a31*b11 + a32*b21 + a33*b31,
       a30*b02 + a31*b12 + a32*b22 + a33*b32, a30*b03 + a31*b13 + a32*b23 + a33*b33] := by
  ext i j
  rw [Matrix.mul_apply, Fin.sum_univ_four]
  fin_cases i <;> fin_cases j <;> rfl

lemma mat4_eq
    {a00 a01 a02 a03 a10 a11 a12 a13 a20 a21 a22 a23 a30 a31 a32 a33
     b00 b01 b02 b03 b10 b11 b12 b13 b20 b21 b22 b23 b30 b31 b32 b33 : K}
    (h00 : a00 = b00) (h01 : a01 = b01) (h02 : a02 = b02) (h03 : a03 = b03)
    (h10 : a10 = b10) (h11 : a11 = b11) (h12 : a12 = b12) (h13 : a13 = b13)
    (h20 : a20 = b20) (h21 : a21 = b21) (h22 : a22 = b22) (h23 : a23 = b23)
    (h30 : a30 = b30) (h31 : a31 = b31) (h32 : a32 = b32) (h33 : a33 = b33) :
    !![a00, a01, a02, a03; a10, a11, a12, a13;
       a20, a21, a22, a23; a30, a31, a32, a33] =
    !![b00, b01, b02, b03; b10, b11, b12, b13;
       b20, b21, b22, b23; b30, b31, b32, b33] := by
  subst_vars
  rfl

lemma perspRender_literal (l r b t n f : K) :
    setEntry (setEntry (frustum l r b t n f) 2 2 (-1)) 2 3 (-2 * n) =
      !![2 * n / (r - l), 0, (r + l) / (r - l), 0;
         0, 2 * n / (t - b), (t + b) / (t - b), 0;
         0, 0, -1, -2 * n;
         0, 0, -1, 0] := by
  ext i j
  fin_cases i <;> fin_cases j <;> rfl

lemma not_degenerate_persp (l r b t n f : K)
    (hlr : l ≠ r) (hbt : b ≠ t) (hn : 0 < n) (hnf : n < f) :
    ¬ degenerateFrustum Projection.PERSPECTIVE l r b t n f := by
  simp only [degenerateFrustum, not_or]
  refine ⟨hlr, hbt, ?_, ?_⟩ <;> simp [not_le.mpr hn, not_le.mpr hnf]

lemma not_degenerate_ortho (l r b t n f : K)
    (hlr : l ≠ r) (hbt : b ≠ t) (hnf : n ≠ f) :
    ¬ degenerateFrustum Projection.ORTHO l r b t n f := by
  simp [degenerateFrustum, not_or, hlr, hbt, hnf]

lemma setProjection_persp_fields (cam : CameraState K) (l r b t n f : K)
    (hd : ¬ degenerateFrustum Projection.PERSPECTIVE l r b t n f) :
    (setProjection cam Projection.PERSPECTIVE l r b t n f).mProjectionForCulling
        = frustum l r b t n f ∧
    (setProjection cam Projection.PERSPECTIVE l r b t n f).mProjection
        = setEntry (setEntry (frustum l r b t n f) 2 2 (-1)) 2 3 (-2 * n) ∧
    (setProjection cam Projection.PERSPECTIVE l r b t n f).mNear = n ∧
    (setProjection cam Projection.PERSPECTIVE l r b t n f).mFar = f := by
  rw [setProjection, if_neg hd]
  exact ⟨rfl, rfl, rfl, rfl⟩

lemma setProjection_ortho_fields (cam : CameraState K) (l r b t n f : K)
    (hd : ¬ degenerateFrustum Projection.ORTHO l r b t n f) :
    (setProjection cam Projection.ORTHO l r b t n f).mProjectionForCulling
        = ortho l r b t n f ∧
    (setProjection cam Projection.ORTHO l r b t n f).mProjection
        = ortho l r b t n f ∧
    (setProjection cam Projection.ORTHO l r b t n f).mNear = n ∧
    (setProjection cam Projection.ORTHO l r b t n f).mFar = f := by
  rw [setProjection, if_neg hd]
  exact ⟨rfl, rfl, rfl, rfl⟩

lemma inverseProjection_mul_frustum (l r b t n f : K)
    (hlr : l ≠ r) (hbt : b ≠ t) (hn : 0 < n) (hnf : n < f) :
    inverseProjection (frustum l r b t n f) * frustum l r b t n f = 1 := by
  have hrl : r - l ≠ 0 := sub_ne_zero.mpr fun h => hlr h.symm
  have htb : t - b ≠ 0 := sub_ne_zero.mpr fun h => hbt h.symm
  have hnf0 : n - f ≠ 0 := sub_ne_zero.mpr (ne_of_lt hnf)
  have hn0 : n ≠ 0 := ne_of_gt hn
  have hf0 : f ≠ 0 := ne_of_gt (hn.trans hnf)
  have hiv : inverseProjection (frustum l r b t n f) =
      !![1 / (2 * n / (r - l)), 0, 0, (r + l) / (r - l) * (1 / (2 * n / (r - l)));
         0, 1 / (2 * n / (t - b)), 0, (t + b) / (t - b) * (1 / (2 * n / (t - b)));
         0, 0, 0, -1;
         0, 0, 1 / (2 * f * n / (n - f)),
           (f + n) / (n - f) * (1 / (2 * f * n / (n - f)))] := by
    rw [inverseProjection]
    norm_num [frustum]
  rw [hiv,
    show frustum l r b t n f =
        !![2 * n / (r - l), 0, (r + l) / (r - l), 0;
           0, 2 * n / (t - b), (t + b) / (t - b), 0;
           0, 0, (f + n) / (n - f), 2 * f * n / (n - f);
           0, 0, -1, 0] from rfl,
    mul_fin_four, one_fin_four]
  refine mat4_eq ?_ ?_ ?_ ?_ ?_ ?_ ?_ ?_ ?_ ?_ ?_ ?_ ?_ ?_ ?_ ?_ <;>
    (field_simp; try ring)

lemma inverseProjection_mul_ortho (l r b t n f : K)
    (hlr : l ≠ r) (hbt : b ≠ t) (hnf : n ≠ f) :
    inverseProjection (ortho l r b t n f) * ortho l r b t n f = 1 := by
  have hrl : r - l ≠ 0 := sub_ne_zero.mpr fun h => hlr h.symm
  have htb : t - b ≠ 0 := sub_ne_zero.mpr fun h => hbt h.symm
  have hfn : f - n ≠ 0 := sub_ne_zero.mpr fun h => hnf h.symm
  have hiv : inverseProjection (ortho l r b t n f) =
      !![(r - l) / 2, 0, 0, (r + l) / (r - l) * ((r - l) / 2);
         0, (t - b) / 2, 0, (t + b) / (t - b) * ((t - b) / 2);
         0, 0, (f - n) / -2, (f + n) / (f - n) * ((f - n) / -2);
         0, 0, 0, 1] := by
    rw [inverseProjection]
    norm_num [ortho]
  rw [hiv,
    show ortho l r b t n f =
        !![2 / (r - l), 0, 0, -((r + l) / (r - l));
           0, 2 / (t - b), 0, -((t + b) / (t - b));
           0, 0, -2 / (f - n), -((f + n) / (f - n));
           0, 0, 0, 1] from rfl,
    mul_fin_four, one_fin_four]
  refine mat4_eq ?_ ?_ ?_ ?_ ?_ ?_ ?_ ?_ ?_ ?_ ?_ ?_ ?_ ?_ ?_ ?_ <;>
    (field_simp; try ring)

lemma inverseProjection_mul_infiniteFar (l r b t n f : K)
    (hlr : l ≠ r) (hbt : b ≠ t) (hn : 0 < n) :
    inverseProjection (setEntry (setEntry (frustum l r b t n f) 2 2 (-1)) 2 3 (-2 * n)) *
      setEntry (setEntry (frustum l r b t n f) 2 2 (-1)) 2 3 (-2 * n) = 1 := by
  have hrl : r - l ≠ 0 := sub_ne_zero.mpr fun h => hlr h.symm
  have htb : t - b ≠ 0 := sub_ne_zero.mpr fun h => hbt h.symm
  have hn0 : n ≠ 0 := ne_of_gt hn
  rw [perspRender_literal]
  have h32 : (!![2 * n / (r - l), 0, (r + l) / (r - l), 0;
          0, 2 * n / (t - b), (t + b) / (t - b), 0;
          0, 0, -1, -2 * n;
          0, 0, -1, 0] : Matrix (Fin 4) (Fin 4) K) 3 2 ≠ 0 := by
    rw [show (!![2 * n / (r - l), 0, (r + l) / (r - l), 0;
          0, 2 * n / (t - b), (t + b) / (t - b), 0;
          0, 0, -1, -2 * n;
          0, 0, -1, 0] : Matrix (Fin 4) (Fin 4) K) 3 2 = -1 from rfl]
    norm_num
  have hiv : inverseProjection
      (!![2 * n / (r - l), 0, (r + l) / (r - l), 0;
          0, 2 * n / (t - b), (t + b) / (t - b), 0;
          0, 0, -1, -2 * n;
          0, 0, -1, 0] : Matrix (Fin 4) (Fin 4) K) =
      !![(r - l) / (2 * n), 0, 0, (r + l) / (r - l) * ((r - l) / (2 * n));
         0, (t - b) / (2 * n), 0, (t + b) / (t - b) * ((t - b) / (2 * n));
         0, 0, 0, -1;
         0, 0, 1 / (-2 * n), -(1 / (-2 * n))] := by
    simp only [inverseProjection]
    rw [if_pos h32]
    norm_num
  rw [hiv, mul_fin_four, one_fin_four]
  refine mat4_eq ?_ ?_ ?_ ?_ ?_ ?_ ?_ ?_ ?_ ?_ ?_ ?_ ?_ ?_ ?_ ?_ <;>
    (field_simp; try ring)

/-- C1: for valid parameters, `setProjection` stores the exact GL frustum
matrix as the culling projection and, for PERSPECTIVE, the rendering
projection is that matrix with exactly the two entries `p[2][2] = -1` and
`p[3][2] = -2*near` overwritten (shown both through `setEntry` on the stored
culling matrix and as the explicit literal); for ORTHO both stored matrices
are the orthographic matrix; the stored near/far scalars are the given ones. -/
theorem setProjection_valid_stores (cam : CameraState K) (l r b t n f : K)
    (hlr : l ≠ r) (hbt : b ≠ t) :
    (0 < n → n < f →
      (setProjection cam Projection.PERSPECTIVE l r b t n f).mProjectionForCulling
          = frustum l r b t n f ∧
      (setProjection cam Projection.PERSPECTIVE l r b t n f).mProjection
          = setEntry (setEntry
              ((setProjection cam Projection.PERSPECTIVE l r b t n f).mProjectionForCulling)
              2 2 (-1)) 2 3 (-2 * n) ∧
      (setProjection cam Projection.PERSPECTIVE l r b t n f).mProjection
          = !![2 * n / (r - l), 0, (r + l) / (r - l), 0;
               0, 2 * n / (t - b), (t + b) / (t - b), 0;
               0, 0, -1, -2 * n;
               0, 0, -1, 0] ∧
      (setProjection cam Projection.PERSPECTIVE l r b t n f).mNear = n ∧
      (setProjection cam Projection.PERSPECTIVE l r b t n f).mFar = f) ∧
    (n ≠ f →
      (setProjection cam Projection.ORTHO l r b t n f).mProjectionForCulling
          = ortho l r b t n f ∧
      (setProjection cam Projection.ORTHO l r b t n f).mProjection
          = (setProjection cam Projection.ORTHO l r b t n f).mProjectionForCulling ∧
      (setProjection cam Projection.ORTHO l r b t n f).mNear = n ∧
      (setProjection cam Projection.ORTHO l r b t n f).mFar = f) := by
  constructor
  · intro hn hnf
    obtain ⟨hc, hp, hnear, hfar⟩ :=
      setProjection_persp_fields cam l r b t n f
        (not_degenerate_persp l r b t n f hlr hbt hn hnf)
    exact ⟨hc, by rw [hp, hc], by rw [hp, perspRender_literal], hnear, hfar⟩
  · intro hnf
    obtain ⟨hc, hp, hnear, hfar⟩ :=
      setProjection_ortho_fields cam l r b t n f
        (not_degenerate_ortho l r b t n f hlr hbt hnf)
    exact ⟨hc, by rw [hp, hc], hnear, hfar⟩

/-- Witness for C1: the valid frustum `(-1, 1, -1, 1, 1, 10)` on a concrete
camera, for both projection types. -/
theorem setProjection_valid_stores_witness :
    ((-1:ℚ) ≠ 1) ∧ ((0:ℚ) < 1) ∧ ((1:ℚ) < 10) ∧ ((1:ℚ) ≠ 10) ∧
    (setProjection camera0 Projection.PERSPECTIVE (-1) 1 (-1) 1 1 10).mProjectionForCulling
        = frustum (-1) 1 (-1) 1 1 10 ∧
    (setProjection camera0 Projection.ORTHO (-1) 1 (-1) 1 1 10).mProjection
        = (setProjection camera0 Projection.ORTHO (-1) 1 (-1) 1 1 10).mProjectionForCulling := by
  have h := setProjection_valid_stores camera0 (-1) 1 (-1) 1 1 (10:ℚ)
    (by norm_num) (by norm_num)
  exact ⟨by norm_num, by norm_num, by norm_num, by norm_num,
    (h.1 (by norm_num) (by norm_num)).1, (h.2 (by norm_num)).2.1⟩

/-- C2: on degenerate parameters (`left == right`, `bottom == top`,
PERSPECTIVE with `near <= 0` or `far <= near`, or ORTHO with `near == far`),
`setProjection` proceeds exactly as if called with the default frustum
`left = -0.1, right = 0.1, bottom = -0.1, top = 0.1, near = 0.1, far = 100`
for the same projection type. -/
theorem setProjection_degenerate_uses_default (cam : CameraState K)
    (projection : Projection) (l r b t n f : K)
    (h : degenerateFrustum projection l r b t n f) :
    setProjection cam projection l r b t n f =
      setProjection cam projection (-(1/10)) (1/10) (-(1/10)) (1/10) (1/10) 100 := by
  have hdef : ¬ degenerateFrustum projection
      (-(1/10) : K) (1/10) (-(1/10)) (1/10) (1/10) 100 := by
    cases projection <;> norm_num [degenerateFrustum]
  rw [setProjection, if_pos h, setProjection, if_neg hdef]

/-- Witness for C2: the spec's degenerate input
`setProjection(PERSPECTIVE, 0, 0, -1, 1, 0.1, 10)` (`left == right`). -/
theorem setProjection_degenerate_uses_default_witness :
    degenerateFrustum Projection.PERSPECTIVE (0:ℚ) 0 (-1) 1 (1/10) 10 ∧
    setProjection camera0 Projection.PERSPECTIVE (0:ℚ) 0 (-1) 1 (1/10) 10 =
      setProjection camera0 Projection.PERSPECTIVE (-(1/10)) (1/10) (-(1/10)) (1/10) (1/10) 100 :=
  ⟨Or.inl rfl,
   setProjection_degenerate_uses_default camera0 Projection.PERSPECTIVE
     0 0 (-1) 1 (1/10) 10 (Or.inl rfl)⟩

/-- C3: `getProjectionMatrix` returns `M * P` where `P` is the stored
rendering projection and `M` has rows `(sx, 0, 0, tx)`, `(0, sy, 0, ty)`,
`(0, 0, -0.5, 0.5)`, `(0, 0, 0, 1)`; equivalently, rows 0/1 are scaled and
shifted, row 2 remaps depth by `z' = -0.5 z + 0.5 w`, and row 3 is kept.
Being a pure function of the state, the read leaves the stored projection
unchanged. -/
theorem getProjectionMatrix_premultiplies_adapter (cam : CameraState K) :
    getProjectionMatrix cam =
      !![cam.mScalingX, 0, 0, cam.mShiftX;
         0, cam.mScalingY, 0, cam.mShiftY;
         0, 0, -(1/2), 1/2;
         0, 0, 0, 1] * cam.mProjection ∧
    ∀ j : Fin 4,
      getProjectionMatrix cam 0 j =
        cam.mScalingX * cam.mProjection 0 j + cam.mShiftX * cam.mProjection 3 j ∧
      getProjectionMatrix cam 1 j =
        cam.mScalingY * cam.mProjection 1 j + cam.mShiftY * cam.mProjection 3 j ∧
      getProjectionMatrix cam 2 j =
        -(1/2) * cam.mProjection 2 j + 1/2 * cam.mProjection 3 j ∧
      getProjectionMatrix cam 3 j = cam.mProjection 3 j := by
  refine ⟨rfl, fun j => ⟨?_, ?_, ?_, ?_⟩⟩ <;>
    (rw [getProjectionMatrix, Matrix.mul_apply, Fin.sum_univ_four]
     simp only [Matrix.cons_val_zero, Matrix.cons_val_one, Matrix.head_cons,
       Matrix.cons_val_two, Matrix.cons_val_three, Matrix.tail_cons, Matrix.of_apply]
     ring)

/-- C4: `getCullingProjectionMatrix` returns `M * C` where `C` is the stored
culling projection and `M` applies the same X/Y scale and shift as the
rendering adapter but has identity Z and W rows, so rows 2 and 3 of the
culling projection pass through unchanged. -/
theorem getCullingProjectionMatrix_preserves_zw (cam : CameraState K) :
    getCullingProjectionMatrix cam =
      !![cam.mScalingX, 0, 0, cam.mShiftX;
         0, cam.mScalingY, 0, cam.mShiftY;
         0, 0, 1, 0;
         0, 0, 0, 1] * cam.mProjectionForCulling ∧
    ∀ j : Fin 4,
      getCullingProjectionMatrix cam 0 j =
        cam.mScalingX * cam.mProjectionForCulling 0 j +
          cam.mShiftX * cam.mProjectionForCulling 3 j ∧
      getCullingProjectionMatrix cam 1 j =
        cam.mScalingY * cam.mProjectionForCulling 1 j +
          cam.mShiftY * cam.mProjectionForCulling 3 j ∧
      getCullingProjectionMatrix cam 2 j = cam.mProjectionForCulling 2 j ∧
      getCullingProjectionMatrix cam 3 j = cam.mProjectionForCulling 3 j := by
  refine ⟨rfl, fun j => ⟨?_, ?_, ?_, ?_⟩⟩ <;>
    (rw [getCullingProjectionMatrix, Matrix.mul_apply, Fin.sum_univ_four]
     simp only [Matrix.cons_val_zero, Matrix.cons_val_one, Matrix.head_cons,
       Matrix.cons_val_two, Matrix.cons_val_three, Matrix.tail_cons, Matrix.of_apply]
     ring)

/-- C5: the closed-form `inverseProjection` is an exact left inverse for the
three matrix families the builder produces: the orthographic matrix, the
exact (culling) perspective frustum matrix, and the infinite-far rendering
perspective matrix, as stored by `setProjection` with valid parameters. -/
theorem inverseProjection_mul_self (cam : CameraState K) (l r b t n f : K)
    (hlr : l ≠ r) (hbt : b ≠ t) :
    (n ≠ f →
      inverseProjection ((setProjection cam Projection.ORTHO l r b t n f).mProjection) *
        (setProjection cam Projection.ORTHO l r b t n f).mProjection = 1) ∧
    (0 < n → n < f →
      inverseProjection
          ((setProjection cam Projection.PERSPECTIVE l r b t n f).mProjectionForCulling) *
        (setProjection cam Projection.PERSPECTIVE l r b t n f).mProjectionForCulling = 1 ∧
      inverseProjection ((setProjection cam Projection.PERSPECTIVE l r b t n f).mProjection) *
        (setProjection cam Projection.PERSPECTIVE l r b t n f).mProjection = 1) := by
  constructor
  · intro hnf
    obtain ⟨_, hp, _, _⟩ :=
      setProjection_ortho_fields cam l r b t n f
        (not_degenerate_ortho l r b t n f hlr hbt hnf)
    rw [hp]
    exact inverseProjection_mul_ortho l r b t n f hlr hbt hnf
  · intro hn hnf
    obtain ⟨hc, hp, _, _⟩ :=
      setProjection_persp_fields cam l r b t n f
        (not_degenerate_persp l r b t n f hlr hbt hn hnf)
    constructor
    · rw [hc]
      exact inverseProjection_mul_frustum l r b t n f hlr hbt hn hnf
    · rw [hp]
      exact inverseProjection_mul_infiniteFar l r b t n f hlr hbt hn

/-- Witness for C5: the frustum `(-1, 1, -1, 1, 1, 10)` on a concrete camera,
covering all three matrix families. -/
theorem inverseProjection_mul_self_witness :
    ((-1:ℚ) ≠ 1) ∧ ((0:ℚ) < 1) ∧ ((1:ℚ) < 10) ∧ ((1:ℚ) ≠ 10) ∧
    (inverseProjection ((setProjection camera0 Projection.ORTHO (-1) 1 (-1) 1 1 10).mProjection) *
      (setProjection camera0 Projection.ORTHO (-1) 1 (-1) 1 1 10).mProjection = 1) ∧
    (inverseProjection
        ((setProjection camera0 Projection.PERSPECTIVE (-1) 1 (-1) 1 1 10).mProjectionForCulling) *
      (setProjection camera0 Projection.PERSPECTIVE (-1) 1 (-1) 1 1 10).mProjectionForCulling = 1) ∧
    (inverseProjection ((setProjection camera0 Projection.PERSPECTIVE (-1) 1 (-1) 1 1 10).mProjection) *
      (setProjection camera0 Projection.PERSPECTIVE (-1) 1 (-1) 1 1 10).mProjection = 1) := by
  have h := inverseProjection_mul_self camera0 (-1) 1 (-1) 1 1 (10:ℚ)
    (by norm_num) (by norm_num)
  exact ⟨by norm_num, by norm_num, by norm_num, by norm_num,
    h.1 (by norm_num), (h.2 (by norm_num) (by norm_num)).1,
    (h.2 (by norm_num) (by norm_num)).2⟩

/-- C6 counterexample: the claim that the clamp makes the division's
zero-denominator case unreachable is false: at `focalLength = 50 > 0` and
`focusDistance = 10` the clamped denominator
`max(focalLength, focusDistance) - focalLength` is exactly `0`, and
`computeEffectiveFocalLength` evaluates the quotient with that zero
denominator. -/
theorem computeEffectiveFocalLength_zero_denominator :
    (0:ℚ) < 50 ∧ effectiveFocalDenominator (50:ℚ) 10 = 0 ∧
    computeEffectiveFocalLength (50:ℚ) 10 =
      max 50 10 * 50 / effectiveFocalDenominator (50:ℚ) 10 := by
  refine ⟨by norm_num, ?_, rfl⟩
  rw [effectiveFocalDenominator, max_eq_left (by norm_num : (10:ℚ) ≤ 50), sub_self]

/-- C6 (amended): `computeEffectiveFocalLength(f, d)` clamps `d` to
`max(f, d)` and evaluates the thin-lens quotient `(d*f)/(d-f)` on the clamped
value; the denominator is zero exactly when `d ≤ f` (so it is nonzero whenever
`d > f`, but the zero-denominator case is reached, not avoided, at `d ≤ f`);
for `d < f` the result equals the call with `d = f`, and in particular
`computeEffectiveFocalLength(50, 10) = computeEffectiveFocalLength(50, 50)`. -/
theorem computeEffectiveFocalLength_clamped (fl d : K) (hf : 0 < fl) :
    computeEffectiveFocalLength fl d = max fl d * fl / (max fl d - fl) ∧
    (effectiveFocalDenominator fl d = 0 ↔ d ≤ fl) ∧
    (fl < d → effectiveFocalDenominator fl d ≠ 0) ∧
    (d < fl → computeEffectiveFocalLength fl d = computeEffectiveFocalLength fl fl) ∧
    computeEffectiveFocalLength (50:K) 10 = computeEffectiveFocalLength 50 50 := by
  have hiff : effectiveFocalDenominator fl d = 0 ↔ d ≤ fl := by
    rw [effectiveFocalDenominator, sub_eq_zero]
    exact max_eq_left_iff
  refine ⟨rfl, hiff, ?_, ?_, ?_⟩
  · intro hd h0
    exact absurd (hiff.mp h0) (not_le.mpr hd)
  · intro hd
    rw [computeEffectiveFocalLength, computeEffectiveFocalLength,
      effectiveFocalDenominator, effectiveFocalDenominator,
      max_eq_left (le_of_lt hd), max_self]
  · rw [computeEffectiveFocalLength, computeEffectiveFocalLength,
      effectiveFocalDenominator, effectiveFocalDenominator,
      max_eq_left (by norm_num : (10:K) ≤ 50), max_self]

/-- Witness for C6 (amended): `focalLength = 50`, `focusDistance = 10`. -/
theorem computeEffectiveFocalLength_clamped_witness :
    (0:ℚ) < 50 ∧ (10:ℚ) < 50 ∧
    computeEffectiveFocalLength (50:ℚ) 10 = computeEffectiveFocalLength 50 50 :=
  ⟨by norm_num, by norm_num,
   (computeEffectiveFocalLength_clamped (50:ℚ) 10 (by norm_num)).2.2.2.1 (by norm_num)⟩

/-- C7: the field-of-view overload computes
`s = tan(fovInDegrees * π/180 / 2) * near`, distributes it to the half-extents
according to the direction (VERTICAL: half-height `s`, half-width `s * aspect`;
HORIZONTAL: half-width `s`, half-height `s / aspect`) and delegates to the
frustum-based `setProjection` with the symmetric frustum
`(PERSPECTIVE, -w, w, -h, h, near, far)`. -/
theorem setProjectionFov_delegates (cam : CameraState ℝ)
    (fovInDegrees aspect near far : ℝ) :
    setProjectionFov cam fovInDegrees aspect near far Fov.VERTICAL =
      setProjection cam Projection.PERSPECTIVE
        (-(Real.tan (fovInDegrees * (Real.pi / 180) / 2) * near * aspect))
        (Real.tan (fovInDegrees * (Real.pi / 180) / 2) * near * aspect)
        (-(Real.tan (fovInDegrees * (Real.pi / 180) / 2) * near))
        (Real.tan (fovInDegrees * (Real.pi / 180) / 2) * near) near far ∧
    setProjectionFov cam fovInDegrees aspect near far Fov.HORIZONTAL =
      setProjection cam Projection.PERSPECTIVE
        (-(Real.tan (fovInDegrees * (Real.pi / 180) / 2) * near))
        (Real.tan (fovInDegrees * (Real.pi / 180) / 2) * near)
        (-(Real.tan (fovInDegrees * (Real.pi / 180) / 2) * near / aspect))
        (Real.tan (fovInDegrees * (Real.pi / 180) / 2) * near / aspect) near far :=
  ⟨rfl, rfl⟩

/-- C8: `setExposure` stores each parameter clamped to its physical range
(aperture to `[0.5, 64]`, shutter speed to `[1/25000, 60]`, sensitivity to
`[10, 204800]`), leaves in-range inputs unchanged, and the stored values
always lie within those ranges. -/
theorem setExposure_clamps (cam : CameraState K) (a s i : K) :
    (setExposure cam a s i).mAperture = clamp a (1/2) 64 ∧
    (setExposure cam a s i).mShutterSpeed = clamp s (1/25000) 60 ∧
    (setExposure cam a s i).mSensitivity = clamp i 10 204800 ∧
    (1/2 ≤ a ∧ a ≤ 64 → (setExposure cam a s i).mAperture = a) ∧
    (1/25000 ≤ s ∧ s ≤ 60 → (setExposure cam a s i).mShutterSpeed = s) ∧
    (10 ≤ i ∧ i ≤ 204800 → (setExposure cam a s i).mSensitivity = i) ∧
    (1/2 ≤ (setExposure cam a s i).mAperture ∧
      (setExposure cam a s i).mAperture ≤ 64) ∧
    (1/25000 ≤ (setExposure cam a s i).mShutterSpeed ∧
      (setExposure cam a s i).mShutterSpeed ≤ 60) ∧
    (10 ≤ (setExposure cam a s i).mSensitivity ∧
      (setExposure cam a s i).mSensitivity ≤ 204800) := by
  refine ⟨rfl, rfl, rfl, ?_, ?_, ?_, ?_, ?_, ?_⟩
  · rintro ⟨h1, h2⟩
    show clamp a (1/2) 64 = a
    rw [clamp, max_eq_left h1, min_eq_left h2]
  · rintro ⟨h1, h2⟩
    show clamp s (1/25000) 60 = s
    rw [clamp, max_eq_left h1, min_eq_left h2]
  · rintro ⟨h1, h2⟩
    show clamp i 10 204800 = i
    rw [clamp, max_eq_left h1, min_eq_left h2]
  · exact ⟨le_min (le_max_right _ _) (by norm_num), min_le_right _ _⟩
  · exact ⟨le_min (le_max_right _ _) (by norm_num), min_le_right _ _⟩
  · exact ⟨le_min (le_max_right _ _) (by norm_num), min_le_right _ _⟩

/-- Witness for C8: the spec's example `setExposure(0.1, 1000, 100)`: aperture
clamps up to `0.5`, shutter speed clamps down to `60`, sensitivity stays
`100`. -/
theorem setExposure_clamps_witness :
    (setExposure camera0 (1/10) 1000 100).mAperture = 1/2 ∧
    (setExposure camera0 (1/10) 1000 100).mShutterSpeed = 60 ∧
    (setExposure camera0 (1/10) 1000 100).mSensitivity = 100 := by
  have h := setExposure_clamps camera0 ((1:ℚ)/10) 1000 100
  refine ⟨h.1.trans ?_, h.2.1.trans ?_, h.2.2.1.trans ?_⟩ <;>
    (rw [clamp, max_def, min_def]
     norm_num)

/-- C9: both `CameraInfo` constructors derive the aperture diameter as
`focalLength / aperture` and the focus depth as `max(near, focusDistance)`;
the world-origin constructor stores `worldOrigin * model` as the model matrix,
its inverse as the view matrix, the camera's world position as `worldOffset`
and the world-origin matrix as `worldOrigin`, while capturing the same
projection and culling-projection matrices as the plain constructor. -/
theorem cameraInfo_constructors (cam : CameraState K)
    (modelMatrix worldOriginCamera : Matrix (Fin 4) (Fin 4) K) (ev : K) :
    (mkCameraInfo cam modelMatrix ev).A =
      getFocalLength cam / cam.mAperture ∧
    (mkCameraInfo cam modelMatrix ev).d =
      max (mkCameraInfo cam modelMatrix ev).zn cam.mFocusDistance ∧
    (mkCameraInfo cam modelMatrix ev).model = modelMatrix ∧
    (mkCameraInfo cam modelMatrix ev).view = inverse4 modelMatrix ∧
    (mkCameraInfoWorldOrigin cam modelMatrix worldOriginCamera ev).A =
      getFocalLength cam / cam.mAperture ∧
    (mkCameraInfoWorldOrigin cam modelMatrix worldOriginCamera ev).d =
      max (mkCameraInfoWorldOrigin cam modelMatrix worldOriginCamera ev).zn
        cam.mFocusDistance ∧
    (mkCameraInfoWorldOrigin cam modelMatrix worldOriginCamera ev).model =
      worldOriginCamera * modelMatrix ∧
    (mkCameraInfoWorldOrigin cam modelMatrix worldOriginCamera ev).view =
      inverse4 (worldOriginCamera * modelMatrix) ∧
    (mkCameraInfoWorldOrigin cam modelMatrix worldOriginCamera ev).worldOffset =
      getPosition modelMatrix ∧
    (mkCameraInfoWorldOrigin cam modelMatrix worldOriginCamera ev).worldOrigin =
      worldOriginCamera ∧
    (mkCameraInfoWorldOrigin cam modelMatrix worldOriginCamera ev).projection =
      (mkCameraInfo cam modelMatrix ev).projection ∧
    (mkCameraInfoWorldOrigin cam modelMatrix worldOriginCamera ev).cullingProjection =
      (mkCameraInfo cam modelMatrix ev).cullingProjection ∧
    (mkCameraInfoWorldOrigin cam modelMatrix worldOriginCamera ev).zn =
      (mkCameraInfo cam modelMatrix ev).zn ∧
    (mkCameraInfoWorldOrigin cam modelMatrix worldOriginCamera ev).zf =
      (mkCameraInfo cam modelMatrix ev).zf :=
  ⟨rfl, rfl, rfl, rfl, rfl, rfl, rfl, rfl, rfl, rfl, rfl, rfl, rfl, rfl⟩

/-- C10: the single-matrix `setCustomProjection(p, near, far)` equals the
two-matrix overload called with `p` for both the rendering and culling
projection; it stores `p` in both matrix fields and the given near/far, and
modifies no other camera state. -/
theorem setCustomProjection_single_overload (cam : CameraState K)
    (p : Matrix (Fin 4) (Fin 4) K) (near far : K) :
    setCustomProjection cam p near far = setCustomProjection2 cam p p near far ∧
    (setCustomProjection cam p near far).mProjection = p ∧
    (setCustomProjection cam p near far).mProjectionForCulling = p ∧
    (setCustomProjection cam p near far).mNear = near ∧
    (setCustomProjection cam p near far).mFar = far ∧
    (setCustomProjection cam p near far).mScalingX = cam.mScalingX ∧
    (setCustomProjection cam p near far).mScalingY = cam.mScalingY ∧
    (setCustomProjection cam p near far).mShiftX = cam.mShiftX ∧
    (setCustomProjection cam p near far).mShiftY = cam.mShiftY ∧
    (setCustomProjection cam p near far).mAperture = cam.mAperture ∧
    (setCustomProjection cam p near far).mShutterSpeed = cam.mShutterSpeed ∧
    (setCustomProjection cam p near far).mSensitivity = cam.mSensitivity ∧
    (setCustomProjection cam p near far).mFocusDistance = cam.mFocusDistance :=
  ⟨rfl, rfl, rfl, rfl, rfl, rfl, rfl, rfl, rfl, rfl, rfl, rfl, rfl⟩

end FilamentCamera
